import Mathlib

/-!
Shallow embedding of the `mockflow` OHLCV mock-data generator
(`mockflow/utils.py`, `mockflow/models.py`, `mockflow/core.py`).

Conventions of the embedding:
  - machine floats are modelled as real numbers `ℝ`; the volatility lookup
    table is kept in `ℚ` so that it is decidable;
  - `datetime` values are modelled as integer minute counts, so that
    `timedelta` arithmetic and `total_seconds() / 60` are exact;
  - each call to `np.random.normal(0, sigma)` is modelled as `sigma * z i`
    where `z : ℕ → ℝ` is the stream of standard-normal draws consumed by
    that loop, and each call to `np.random.random()` as `r i` with
    `r : ℕ → ℝ` the stream of uniform draws (support `0 ≤ r i < 1`);
  - the global numpy generator is modelled by a family
    `prng : ℕ → RandStreams` mapping a seed to the draw streams, and
    Python's builtin string `hash` by an arbitrary `hashFn : String → ℕ`;
  - a Python `raise ValueError(msg)` is an `Except.error msg`.
-/

namespace Mockflow

/-- Model of `utils.get_timeframe_minutes`: dictionary lookup with default 60. -/
def get_timeframe_minutes (timeframe : String) : Int :=
  if timeframe = "15m" then 15
  else if timeframe = "30m" then 30
  else if timeframe = "1h" then 60
  else if timeframe = "2h" then 120
  else if timeframe = "4h" then 240
  else if timeframe = "12h" then 720
  else if timeframe = "1d" then 1440
  else if timeframe = "3d" then 4320
  else if timeframe = "1w" then 10080
  else 60

/-- Model of `utils.calculate_periods_from_days`:
`int(days * 24 * 60 / timeframe_mins)`.  Every call site has
`days ≥ 1` and `timeframe_mins ≥ 15`, where Python's
float-divide-then-truncate agrees with integer division. -/
def calculate_periods_from_days (days timeframe_mins : Int) : Int :=
  days * 24 * 60 / timeframe_mins

/-- Model of `utils.calculate_periods_from_date_range`: dates are minute
counts, so `int(time_diff.total_seconds() / 60)` is exactly
`end_date - start_date`, and the result is that divided by the timeframe. -/
def calculate_periods_from_date_range (start_date end_date timeframe_mins : Int) : Int :=
  (end_date - start_date) / timeframe_mins

/-- Model of `utils.apply_performance_caps`: the limit is taken when
`0 < limit < periods`; the 2000 cap (sub-hour timeframes) and the 10000
global cap each fire only when `limit is None`. -/
def apply_performance_caps (periods timeframe_mins : Int) (limit : Option Int) : Int :=
  let periods :=
    match limit with
    | some l => if 0 < l ∧ l < periods then l else periods
    | none => periods
  if limit = none ∧ timeframe_mins < 60 ∧ 2000 < periods then 2000
  else if limit = none ∧ 10000 < periods then 10000
  else periods

/-- Model of `utils.generate_timestamps`:
`[start_date + timedelta(minutes=timeframe_mins * i) for i in range(periods)]`. -/
def generate_timestamps (periods : ℕ) (timeframe_mins start_date : Int) : List Int :=
  (List.range periods).map (fun i => start_date + timeframe_mins * i)

/-- Model of the `base_volatility_map` lookup in
`models.generate_volatility_cycles`, with the dictionary's default `0.02`. -/
def base_volatility_map (timeframe : String) : ℚ :=
  if timeframe = "15m" then 8/1000
  else if timeframe = "30m" then 12/1000
  else if timeframe = "1h" then 15/1000
  else if timeframe = "2h" then 20/1000
  else if timeframe = "4h" then 25/1000
  else if timeframe = "12h" then 35/1000
  else if timeframe = "1d" then 45/1000
  else if timeframe = "3d" then 65/1000
  else if timeframe = "1w" then 85/1000
  else 2/100

/-- The cyclical factor `1 + 0.3 * np.sin(progress * np.pi * 15)` with
`progress = i / periods`, shared by `generate_volatility_cycles` and
`generate_realistic_volume` (the source repeats the expression verbatim). -/
noncomputable def cyclical_vol (periods i : ℕ) : ℝ :=
  1 + 0.3 * Real.sin ((i : ℝ) / (periods : ℝ) * Real.pi * 15)

/-- One loop body of `models.generate_volatility_cycles`: the GARCH-like
update `base + 0.1 * shock**2 + 0.8 * (current_vol - base)` followed by the
floor clamp `max(., base * 0.3)` and then the ceiling clamp `min(., base * 3.0)`. -/
noncomputable def vol_update (base shock current_vol : ℝ) : ℝ :=
  min (max (base + 0.1 * shock ^ 2 + 0.8 * (current_vol - base)) (base * 0.3))
    (base * 3.0)

/-- The `current_vol` recurrence of `models.generate_volatility_cycles` after
the update of iteration `i`; `current_vol` starts at `base` and the shock of
iteration `i` is `np.random.normal(0, 0.3) = 0.3 * z i`. -/
noncomputable def current_vol_at (base : ℝ) (z : ℕ → ℝ) : ℕ → ℝ
  | 0 => vol_update base (0.3 * z 0) base
  | i + 1 => vol_update base (0.3 * z (i + 1)) (current_vol_at base z i)

/-- Entry `i` of the array returned by `models.generate_volatility_cycles`:
`volatility[i] = current_vol * cyclical_vol`. -/
noncomputable def volatility_at (periods : ℕ) (timeframe : String) (z : ℕ → ℝ)
    (i : ℕ) : ℝ :=
  current_vol_at ((base_volatility_map timeframe : ℚ) : ℝ) z i * cyclical_vol periods i

/-- Model of `models.generate_volatility_cycles` as the array of its entries. -/
noncomputable def generate_volatility_cycles (periods : ℕ) (timeframe : String)
    (z : ℕ → ℝ) : List ℝ :=
  (List.range periods).map (volatility_at periods timeframe z)

/-- Entry `i` of the array built by `models.generate_market_trend`:
the `bull` / `bear` / `sideways` loop bodies, and the untouched
`np.zeros` entry for any other scenario.  The uniform draw of iteration `i`
is `r i`. -/
noncomputable def trend_at (scenario : String) (periods : ℕ) (r : ℕ → ℝ)
    (i : ℕ) : ℝ :=
  let progress : ℝ := (i : ℝ) / (periods : ℝ)
  if scenario = "bull" then
    progress * 0.8 + (r i - 0.5) * 0.1 + Real.sin (progress * Real.pi * 8) * 0.05
  else if scenario = "bear" then
    -progress * 0.6 + (r i - 0.5) * 0.1 + Real.sin (progress * Real.pi * 6) * 0.08
  else if scenario = "sideways" then
    Real.sin (progress * Real.pi * 12) * 0.15 + (r i - 0.5) * 0.08 +
      Real.sin (progress * Real.pi * 3) * 0.05
  else 0

/-- Model of `models.generate_market_trend` as the array of its entries. -/
noncomputable def generate_market_trend (scenario : String) (periods : ℕ)
    (r : ℕ → ℝ) : List ℝ :=
  (List.range periods).map (trend_at scenario periods r)

/-- One loop body of `models.calculate_price_series`:
`target = base_price * (1 + trend_i)`, `price_shock = vol_i * z_i`
(a `np.random.normal(0, vol_i)` draw), and
`current_price += (target - current_price) * 0.1 + current_price * price_shock`. -/
noncomputable def price_step (base_price trend_i vol_i z_i current_price : ℝ) : ℝ :=
  current_price +
    ((base_price * (1 + trend_i) - current_price) * 0.1 + current_price * (vol_i * z_i))

/-- The `current_price` recurrence of `models.calculate_price_series`, i.e.
`prices[i]`; `current_price` starts at `base_price`. -/
noncomputable def price_at (base_price : ℝ) (trend vol z : ℕ → ℝ) : ℕ → ℝ
  | 0 => price_step base_price (trend 0) (vol 0) (z 0) base_price
  | i + 1 => price_step base_price (trend (i + 1)) (vol (i + 1)) (z (i + 1))
      (price_at base_price trend vol z i)

/-- Model of `models.calculate_price_series` as the array of its entries. -/
noncomputable def calculate_price_series (base_price : ℝ) (trend vol z : ℕ → ℝ)
    (periods : ℕ) : List ℝ :=
  (List.range periods).map (price_at base_price trend vol z)

/-- Model of `np.clip(x, lo, hi)` on a scalar. -/
noncomputable def clip (x lo hi : ℝ) : ℝ :=
  min (max x lo) hi

/-- Model of `utils.validate_and_clip_prices`: `np.clip(prices, 1, 1_000_000)`. -/
noncomputable def validate_and_clip_prices (prices : List ℝ) : List ℝ :=
  prices.map (fun p => clip p 1 1000000)

/-- Model of numpy's float-to-int cast (`.astype(int)`): truncation toward
zero. -/
noncomputable def trunc_to_int (x : ℝ) : ℤ :=
  if 0 ≤ x then ⌊x⌋ else ⌈x⌉

/-- The float combined in iteration `i` of `models.generate_realistic_volume`
before the `.astype(int)` cast: `base_volume` (1,000,000) times the
volatility factor, the price-change factor (1 at `i = 0`), the random factor
`0.5 + np.random.random() * 1.5`, and the cyclical factor. -/
noncomputable def volume_at (prices vol r : ℕ → ℝ) (periods i : ℕ) : ℝ :=
  let volatility_factor := 1 + vol i * 5
  let price_change_factor :=
    if i = 0 then 1 else 1 + |prices i - prices (i - 1)| / prices (i - 1) * 10
  let random_factor := 0.5 + r i * 1.5
  1000000 * volatility_factor * price_change_factor * random_factor *
    cyclical_vol periods i

/-- Model of `models.generate_realistic_volume` (including the final
`.astype(int)`). -/
noncomputable def generate_realistic_volume (periods : ℕ) (prices vol r : ℕ → ℝ) :
    List ℤ :=
  (List.range periods).map (fun i => trunc_to_int (volume_at prices vol r periods i))

/-- The `open_price` of iteration `i` of `utils.generate_ohlc_data`:
`prices[0]` at `i = 0`, otherwise the previous close `closes[i-1] = prices[i-1]`
times `1 + gap_factor` with `gap_factor = np.random.normal(0, vol_i * 0.2)
= vol_i * 0.2 * g_i`. -/
noncomputable def open_at (prices vol g : ℕ → ℝ) : ℕ → ℝ
  | 0 => prices 0
  | i + 1 => prices i * (1 + vol (i + 1) * 0.2 * g (i + 1))

/-- The value stored in `highs[i]` by `utils.generate_ohlc_data` before the
final clip: `max(open_price, high_price, close_price)` where
`high_price = max(open, close) * (1 + high_variation)` and
`high_variation = np.abs(np.random.normal(0, vol_i * 0.5))`. -/
noncomputable def high_at (prices vol g hz : ℕ → ℝ) (i : ℕ) : ℝ :=
  let open_price := open_at prices vol g i
  let close_price := prices i
  let high_variation := |vol i * 0.5 * hz i|
  let high_price := max open_price close_price * (1 + high_variation)
  max open_price (max high_price close_price)

/-- The value stored in `lows[i]` by `utils.generate_ohlc_data` before the
final clip: `min(open_price, low_price, close_price)` where
`low_price = min(open, close) * (1 - low_variation)`. -/
noncomputable def low_at (prices vol g lz : ℕ → ℝ) (i : ℕ) : ℝ :=
  let open_price := open_at prices vol g i
  let close_price := prices i
  let low_variation := |vol i * 0.5 * lz i|
  let low_price := min open_price close_price * (1 - low_variation)
  min open_price (min low_price close_price)

/-- The dict returned by `utils.generate_ohlc_data`: each price column is
clipped to `[1, 1_000_000]`, and the volume column is carried through. -/
structure OhlcData where
  opens : List ℝ
  highs : List ℝ
  lows : List ℝ
  closes : List ℝ
  volume : List ℤ

/-- Model of `utils.generate_ohlc_data`.  `closes[i] = prices[i]`, and every
price column passes through `np.clip(., 1, 1_000_000)` at the end. -/
noncomputable def generate_ohlc_data (prices vol : ℕ → ℝ) (volumes : List ℤ)
    (periods : ℕ) (g hz lz : ℕ → ℝ) : OhlcData :=
  { opens := (List.range periods).map (fun i => clip (open_at prices vol g i) 1 1000000)
    highs := (List.range periods).map (fun i => clip (high_at prices vol g hz i) 1 1000000)
    lows := (List.range periods).map (fun i => clip (low_at prices vol g lz i) 1 1000000)
    closes := (List.range periods).map (fun i => clip (prices i) 1 1000000)
    volume := volumes }

/-- The random draws consumed by one generation call, one stream per loop:
`trend_r` and `volume_r` are the uniform `np.random.random()` streams,
the `_z` streams are the standard-normal parts of the
`np.random.normal(0, sigma)` draws of the volatility, price, gap, high and
low loops. -/
structure RandStreams where
  trend_r : ℕ → ℝ
  vol_z : ℕ → ℝ
  price_z : ℕ → ℝ
  volume_r : ℕ → ℝ
  gap_z : ℕ → ℝ
  high_z : ℕ → ℝ
  low_z : ℕ → ℝ

/-- The DataFrame returned by `core.generate_mock_data`: the timestamp index
(integer minutes) and the five columns. -/
structure DataFrame where
  index : List Int
  opens : List ℝ
  highs : List ℝ
  lows : List ℝ
  closes : List ℝ
  volume : List ℤ

/-- The seed set by `np.random.seed(42 + hash(timeframe) % 1000)` in
`core.generate_mock_data`; `hashFn` stands for Python's builtin `hash`. -/
def reseed_value (hashFn : String → ℕ) (timeframe : String) : ℕ :=
  42 + hashFn timeframe % 1000

/-- The `scenario == "auto"` resolution of `core.generate_mock_data`:
`["bull", "bear", "sideways"][hash(symbol + timeframe) % 3]`; the index
expression is written out as a case split since `% 3 < 3`. -/
def resolve_scenario (hashFn : String → ℕ) (symbol timeframe scenario : String) :
    String :=
  if scenario = "auto" then
    let scenario_seed := hashFn (symbol ++ timeframe) % 3
    if scenario_seed = 0 then "bull"
    else if scenario_seed = 1 then "bear"
    else "sideways"
  else scenario

/-- The part of `core.generate_mock_data` that runs after validation and
period-count resolution: reseed, resolve `auto`, then call the four models
and `generate_ohlc_data` / `generate_timestamps` in the source's order and
assemble the DataFrame.  `periods` is the capped period count (an `Int`
whose value is non-negative at every call site; `np.zeros(periods)` makes
the arrays `periods` long, here `periods.toNat`). -/
noncomputable def build_frame (hashFn : String → ℕ) (prng : ℕ → RandStreams)
    (symbol timeframe scenario : String) (periods timeframe_mins : Int)
    (actual_start_date : Int) : DataFrame :=
  let streams := prng (reseed_value hashFn timeframe)
  let base_price : ℝ := 50000
  let scenario := resolve_scenario hashFn symbol timeframe scenario
  let n := periods.toNat
  let trend := trend_at scenario n streams.trend_r
  let vol := volatility_at n timeframe streams.vol_z
  let prices := fun i => clip (price_at base_price trend vol streams.price_z i) 1 1000000
  let volumes := generate_realistic_volume n prices vol streams.volume_r
  let data := generate_ohlc_data prices vol volumes n streams.gap_z streams.high_z
    streams.low_z
  { index := generate_timestamps n timeframe_mins actual_start_date
    opens := data.opens
    highs := data.highs
    lows := data.lows
    closes := data.closes
    volume := data.volume }

/-- Model of `core.generate_mock_data`.  The `match` mirrors
`if start_date and end_date:` (datetimes are always truthy); the `days`
validation runs only in the relative branch; the fixed reference date
`datetime(2024, 1, 1)` is minute `0` of the model's clock, so
`reference_date - timedelta(days=days)` is `-(days * 24 * 60)`. -/
noncomputable def generate_mock_data (hashFn : String → ℕ) (prng : ℕ → RandStreams)
    (symbol timeframe : String) (limit : Option Int) (days : Int)
    (start_date end_date : Option Int) (scenario : String) :
    Except String DataFrame :=
  let timeframe_mins := get_timeframe_minutes timeframe
  match start_date, end_date with
  | some s, some e =>
    if e ≤ s then Except.error "start_date must be before end_date"
    else
      let periods := calculate_periods_from_date_range s e timeframe_mins
      Except.ok (build_frame hashFn prng symbol timeframe scenario
        (apply_performance_caps periods timeframe_mins limit) timeframe_mins s)
  | _, _ =>
    if days ≤ 0 then Except.error "Days parameter must be positive"
    else if 365 < days then
      Except.error "Days parameter cannot exceed 365 for performance reasons"
    else
      let periods := calculate_periods_from_days days timeframe_mins
      let actual_start_date : Int := 0 - days * 24 * 60
      Except.ok (build_frame hashFn prng symbol timeframe scenario
        (apply_performance_caps periods timeframe_mins limit) timeframe_mins
        actual_start_date)

/-- A trivial hash function, used to instantiate concrete runs. -/
def hash0 : String → ℕ := fun _ => 0

/-- The all-zero draw streams, used to instantiate concrete runs. -/
noncomputable def streams0 : RandStreams :=
  ⟨fun _ => 0, fun _ => 0, fun _ => 0, fun _ => 0, fun _ => 0, fun _ => 0, fun _ => 0⟩

/-- A generator model that yields the all-zero streams for every seed. -/
noncomputable def prng0 : ℕ → RandStreams := fun _ => streams0

/-! Helper lemmas. -/

theorem getD_map_range {n i : ℕ} (h : i < n) {α : Type} (f : ℕ → α) (d : α) :
    ((List.range n).map f).getD i d = f i := by
  rw [List.getD_eq_getElem?_getD]
  simp [List.getElem?_map, List.getElem?_range h]

theorem getD_mem {α : Type} (l : List α) (i : ℕ) (d : α) (h : i < l.length) :
    l.getD i d ∈ l := by
  rw [List.getD_eq_getElem?_getD, List.getElem?_eq_getElem h]
  exact List.getElem_mem h

theorem base_volatility_map_pos (timeframe : String) :
    (0 : ℚ) < base_volatility_map timeframe := by
  unfold base_volatility_map
  split_ifs <;> norm_num

theorem base_volatility_map_real_pos (timeframe : String) :
    (0 : ℝ) < ((base_volatility_map timeframe : ℚ) : ℝ) := by
  exact_mod_cast base_volatility_map_pos timeframe

theorem vol_update_le (base shock current_vol : ℝ) :
    vol_update base shock current_vol ≤ base * 3.0 :=
  min_le_right _ _

theorem le_vol_update (base shock current_vol : ℝ) (hb : 0 ≤ base) :
    base * 0.3 ≤ vol_update base shock current_vol :=
  le_min (le_max_right _ _) (by nlinarith)

theorem base_le_vol_update (base shock current_vol : ℝ) (hb : 0 ≤ base)
    (hcv : base ≤ current_vol) : base ≤ vol_update base shock current_vol := by
  unfold vol_update
  have hraw : base ≤ base + 0.1 * shock ^ 2 + 0.8 * (current_vol - base) := by
    nlinarith [sq_nonneg shock]
  exact le_min (le_trans hraw (le_max_left _ _)) (by nlinarith)

theorem base_le_current_vol (base : ℝ) (z : ℕ → ℝ) (hb : 0 ≤ base) (i : ℕ) :
    base ≤ current_vol_at base z i := by
  induction i with
  | zero => exact base_le_vol_update _ _ _ hb le_rfl
  | succ n ih => exact base_le_vol_update _ _ _ hb ih

theorem current_vol_le (base : ℝ) (z : ℕ → ℝ) (i : ℕ) :
    current_vol_at base z i ≤ base * 3.0 := by
  cases i with
  | zero => exact vol_update_le _ _ _
  | succ n => exact vol_update_le _ _ _

theorem cyclical_vol_ge (periods i : ℕ) : 0.7 ≤ cyclical_vol periods i := by
  unfold cyclical_vol
  nlinarith [Real.neg_one_le_sin ((i : ℝ) / (periods : ℝ) * Real.pi * 15)]

theorem cyclical_vol_le (periods i : ℕ) : cyclical_vol periods i ≤ 1.3 := by
  unfold cyclical_vol
  nlinarith [Real.sin_le_one ((i : ℝ) / (periods : ℝ) * Real.pi * 15)]

theorem volatility_at_pos (periods : ℕ) (timeframe : String) (z : ℕ → ℝ) (i : ℕ) :
    0 < volatility_at periods timeframe z i := by
  unfold volatility_at
  have hb := base_volatility_map_real_pos timeframe
  have h1 := base_le_current_vol ((base_volatility_map timeframe : ℚ) : ℝ) z hb.le i
  have h2 := cyclical_vol_ge periods i
  nlinarith

theorem one_le_clip (x : ℝ) : 1 ≤ clip x 1 1000000 :=
  le_min (le_max_right _ _) (by norm_num)

theorem clip_le_top (x : ℝ) : clip x 1 1000000 ≤ 1000000 :=
  min_le_right _ _

theorem clip_mono (x y lo hi : ℝ) (h : x ≤ y) : clip x lo hi ≤ clip y lo hi :=
  min_le_min (max_le_max h le_rfl) le_rfl

theorem trunc_to_int_nonneg (x : ℝ) (h : 0 ≤ x) : 0 ≤ trunc_to_int x := by
  rw [trunc_to_int, if_pos h]
  exact Int.floor_nonneg.mpr h

theorem build_frame_opens_length (hashFn : String → ℕ) (prng : ℕ → RandStreams)
    (symbol timeframe scenario : String) (periods timeframe_mins : Int)
    (actual_start_date : Int) :
    (build_frame hashFn prng symbol timeframe scenario periods timeframe_mins
      actual_start_date).opens.length = periods.toNat := by
  simp [build_frame, generate_ohlc_data]

/-! Claim theorems. -/

/-- C4 (counterexample): with `periods = 15000`, `timeframe_mins = 60` and
`limit = 20000` (a limit that does not satisfy `0 < limit < periods`), the
claim predicts the global cap `10000`, but `apply_performance_caps`
returns the uncapped `15000`: the caps are skipped whenever a limit was
given. -/
theorem C4_caps_counterexample :
    apply_performance_caps 15000 60 (some 20000) = 15000 ∧
    apply_performance_caps 15000 60 (some 20000) ≠ 10000 := by
  decide

/-- C4 (amended): period-count resolution — if a limit is given, the result
is `limit` when `0 < limit < periods` and the uncapped `periods` otherwise;
the 2000 cap (timeframe under 60 minutes) and the 10000 global cap apply
only when no limit was given. -/
theorem C4_caps_resolution :
    (∀ periods timeframe_mins l : Int,
      apply_performance_caps periods timeframe_mins (some l) =
        if 0 < l ∧ l < periods then l else periods) ∧
    (∀ periods timeframe_mins : Int,
      apply_performance_caps periods timeframe_mins none =
        if timeframe_mins < 60 ∧ 2000 < periods then 2000
        else if 10000 < periods then 10000
        else periods) := by
  constructor
  · intro periods timeframe_mins l
    simp [apply_performance_caps]
  · intro periods timeframe_mins
    simp [apply_performance_caps]

/-- C5 (counterexample): `"5m"` is not in the volatility lookup table; its
base constant is the dictionary default `0.02`, which differs from the
1-hour constant `0.015`. -/
theorem C5_default_base_counterexample :
    base_volatility_map "5m" = 2/100 ∧
    base_volatility_map "5m" ≠ base_volatility_map "1h" := by
  have h5 : base_volatility_map "5m" = 2/100 := rfl
  have h1 : base_volatility_map "1h" = 15/1000 := rfl
  refine ⟨h5, ?_⟩
  rw [h5, h1]
  norm_num

/-- C5 (amended): for every timeframe label outside the lookup table, the
base volatility constant is the default `0.02` — which equals the table's
2-hour constant, not the 1-hour constant. -/
theorem C5_default_base (timeframe : String)
    (h : timeframe ∉
      (["15m", "30m", "1h", "2h", "4h", "12h", "1d", "3d", "1w"] : List String)) :
    base_volatility_map timeframe = 2/100 ∧
    base_volatility_map timeframe = base_volatility_map "2h" := by
  simp at h
  obtain ⟨h1, h2, h3, h4, h5, h6, h7, h8, h9⟩ := h
  have hv : base_volatility_map timeframe = 2/100 := by
    unfold base_volatility_map
    rw [if_neg h1, if_neg h2, if_neg h3, if_neg h4, if_neg h5, if_neg h6, if_neg h7,
      if_neg h8, if_neg h9]
  have h2h : base_volatility_map "2h" = 20/1000 := rfl
  refine ⟨hv, ?_⟩
  rw [hv, h2h]
  norm_num

/-- Witness for C5: the concrete unknown label `"5m"`. -/
theorem C5_default_base_witness :
    ("5m" ∉
      (["15m", "30m", "1h", "2h", "4h", "12h", "1d", "3d", "1w"] : List String)) ∧
    (base_volatility_map "5m" = 2/100 ∧
      base_volatility_map "5m" = base_volatility_map "2h") :=
  ⟨by decide, C5_default_base "5m" (by decide)⟩

/-- C7: `generate_mock_data` is a pure function of the parameters, the
reseeded generator model and the hash function — two calls with identical
parameters and identical pre-call generator state produce identical
tables (all cells and the timestamp index). -/
theorem C7_determinism (hashFn1 hashFn2 : String → ℕ)
    (prng1 prng2 : ℕ → RandStreams) (symbol timeframe : String)
    (limit : Option Int) (days : Int) (start_date end_date : Option Int)
    (scenario : String) (hh : hashFn1 = hashFn2) (hp : prng1 = prng2) :
    generate_mock_data hashFn1 prng1 symbol timeframe limit days start_date
        end_date scenario =
      generate_mock_data hashFn2 prng2 symbol timeframe limit days start_date
        end_date scenario := by
  rw [hh, hp]

/-- Witness for C7 at a concrete call. -/
theorem C7_determinism_witness :
    hash0 = hash0 ∧ prng0 = prng0 ∧
    generate_mock_data hash0 prng0 "BTC" "1h" none 30 none none "auto" =
      generate_mock_data hash0 prng0 "BTC" "1h" none 30 none none "auto" :=
  ⟨rfl, rfl,
    C7_determinism hash0 hash0 prng0 prng0 "BTC" "1h" none 30 none none "auto"
      rfl rfl⟩

/-- C8: for every scenario outside `{bull, bear, sideways}` and every
period count `n > 0`, `generate_market_trend` returns a signal of length
`n` whose entries are all zero (the untouched `np.zeros` array), raising
no error. -/
theorem C8_unknown_scenario_zeros (scenario : String) (periods : ℕ) (r : ℕ → ℝ)
    (h1 : scenario ≠ "bull") (h2 : scenario ≠ "bear")
    (h3 : scenario ≠ "sideways") (hn : 0 < periods) :
    (generate_market_trend scenario periods r).length = periods ∧
    ∀ x ∈ generate_market_trend scenario periods r, x = 0 := by
  refine ⟨by simp [generate_market_trend], ?_⟩
  intro x hx
  simp only [generate_market_trend, List.mem_map, List.mem_range] at hx
  obtain ⟨i, _, hxe⟩ := hx
  rw [← hxe]
  simp [trend_at, h1, h2, h3]

/-- Witness for C8 at the concrete scenario `"auto"` with `n = 3`. -/
theorem C8_unknown_scenario_zeros_witness :
    ("auto" : String) ≠ "bull" ∧ ("auto" : String) ≠ "bear" ∧
    ("auto" : String) ≠ "sideways" ∧ 0 < 3 ∧
    ((generate_market_trend "auto" 3 (fun _ => 0)).length = 3 ∧
      ∀ x ∈ generate_market_trend "auto" 3 (fun _ => 0), x = 0) :=
  ⟨by decide, by decide, by decide, by decide,
    C8_unknown_scenario_zeros "auto" 3 (fun _ => 0) (by decide) (by decide)
      (by decide) (by decide)⟩

/-- C9: `generate_mock_data` returns a validation error exactly when
`days ≤ 0` with no complete date range given, or `days > 365` with no
complete date range given, or `start_date ≥ end_date` when both dates are
given; in the error case no table (hence no row) is produced and no model
runs. -/
theorem C9_validation_errors (hashFn : String → ℕ) (prng : ℕ → RandStreams)
    (symbol timeframe : String) (limit : Option Int) (days : Int)
    (start_date end_date : Option Int) (scenario : String) :
    (∃ msg, generate_mock_data hashFn prng symbol timeframe limit days
        start_date end_date scenario = Except.error msg) ↔
      ((∃ s e, start_date = some s ∧ end_date = some e ∧ e ≤ s) ∨
        ((start_date = none ∨ end_date = none) ∧ (days ≤ 0 ∨ 365 < days))) := by
  cases start_date <;> cases end_date <;>
    simp only [generate_mock_data] <;>
    split_ifs <;> simp_all

/-- C2 (counterexample): for timeframe `"1h"` (base `0.015`), `periods = 90`
and standard-normal draws all equal to `10`, the signal value at period 1 is
`0.045 * (1 + 0.3 * sin(pi/6)) = 0.05175`, which exceeds `3.0 * base = 0.045`:
the `[0.3*base, 3.0*base]` clamp applies to `current_vol` before the
cyclical factor is multiplied on, so the returned VolatilitySignal can
leave the claimed interval. -/
theorem C2_volatility_bounds_counterexample :
    3 * ((base_volatility_map "1h" : ℚ) : ℝ) <
      volatility_at 90 "1h" (fun _ => 10) 1 := by
  have hb : ((base_volatility_map "1h" : ℚ) : ℝ) = 15 / 1000 := by
    norm_num [show base_volatility_map "1h" = 15/1000 from rfl]
  have hs : Real.sin (((1 : ℕ) : ℝ) / ((90 : ℕ) : ℝ) * Real.pi * 15) = 1 / 2 := by
    have harg : ((1 : ℕ) : ℝ) / ((90 : ℕ) : ℝ) * Real.pi * 15 = Real.pi / 6 := by
      push_cast
      ring
    rw [harg, Real.sin_pi_div_six]
  show 3 * ((base_volatility_map "1h" : ℚ) : ℝ) <
    vol_update ((base_volatility_map "1h" : ℚ) : ℝ) (0.3 * 10)
        (vol_update ((base_volatility_map "1h" : ℚ) : ℝ) (0.3 * 10)
          ((base_volatility_map "1h" : ℚ) : ℝ)) *
      (1 + 0.3 * Real.sin (((1 : ℕ) : ℝ) / ((90 : ℕ) : ℝ) * Real.pi * 15))
  rw [hb, hs]
  simp only [vol_update]
  norm_num [min_def, max_def]

/-- C2 (amended): every entry of the VolatilitySignal lies in
`[0.3 * base, 3.9 * base]` for the timeframe's base constant (the clamped
recurrence value stays in `[base, 3.0 * base]` and the cyclical factor in
`[0.7, 1.3]`); the claimed lower bound `0.3 * base` holds, but the upper
bound is `3.9 * base`, not `3.0 * base`. -/
theorem C2_volatility_bounds (periods : ℕ) (timeframe : String) (z : ℕ → ℝ)
    (v : ℝ) (hv : v ∈ generate_volatility_cycles periods timeframe z) :
    0.3 * ((base_volatility_map timeframe : ℚ) : ℝ) ≤ v ∧
      v ≤ 3.9 * ((base_volatility_map timeframe : ℚ) : ℝ) := by
  simp only [generate_volatility_cycles, List.mem_map, List.mem_range] at hv
  obtain ⟨i, _, rfl⟩ := hv
  have hB := base_volatility_map_real_pos timeframe
  have hcv1 := base_le_current_vol ((base_volatility_map timeframe : ℚ) : ℝ) z hB.le i
  have hcv2 := current_vol_le ((base_volatility_map timeframe : ℚ) : ℝ) z i
  have hcy1 := cyclical_vol_ge periods i
  have hcy2 := cyclical_vol_le periods i
  unfold volatility_at
  constructor
  · nlinarith
  · nlinarith

/-- Witness for C2 at a concrete signal entry. -/
theorem C2_volatility_bounds_witness :
    volatility_at 1 "1h" (fun _ => 0) 0 ∈
      generate_volatility_cycles 1 "1h" (fun _ => 0) ∧
    (0.3 * ((base_volatility_map "1h" : ℚ) : ℝ) ≤
        volatility_at 1 "1h" (fun _ => 0) 0 ∧
      volatility_at 1 "1h" (fun _ => 0) 0 ≤
        3.9 * ((base_volatility_map "1h" : ℚ) : ℝ)) :=
  ⟨by simp [generate_volatility_cycles],
    C2_volatility_bounds 1 "1h" (fun _ => 0) _
      (by simp [generate_volatility_cycles])⟩

/-- Row count of a relative-mode (`days`-based) call with valid `days`:
the capped period count. -/
theorem gen_days_rows (hashFn : String → ℕ) (prng : ℕ → RandStreams)
    (symbol timeframe : String) (limit : Option Int) (days : Int)
    (scenario : String) (h1 : ¬ days ≤ 0) (h2 : ¬ 365 < days) :
    (generate_mock_data hashFn prng symbol timeframe limit days none none
        scenario).toOption.map (fun df => df.opens.length) =
      some ((apply_performance_caps
        (calculate_periods_from_days days (get_timeframe_minutes timeframe))
        (get_timeframe_minutes timeframe) limit).toNat) := by
  simp [generate_mock_data, h1, h2, Except.toOption, build_frame_opens_length]

/-- C3 (counterexample): with all other parameters at their defaults
(`timeframe = "1h"`, `days = 30`), the computed period count is
`30 * 24 = 720`; `limit = 1000` does not satisfy `0 < limit < periods`, so
the output has 720 rows, not 1000. -/
theorem C3_length_contract_counterexample :
    (generate_mock_data hash0 prng0 "BTC" "1h" (some 1000) 30 none none
        "auto").toOption.map (fun df => df.opens.length) = some 720 ∧
    (720 : ℕ) ≠ 1000 := by
  constructor
  · rw [gen_days_rows hash0 prng0 "BTC" "1h" (some 1000) 30 "auto" (by norm_num)
      (by norm_num)]
    decide
  · decide

/-- C3 (amended): with `limit = N`, no date range and the other parameters
at their defaults, the output has exactly `N` rows for `N` in
`{1, 50, 100}`; for `N = 1000` the default `days = 30` at timeframe `"1h"`
yields only 720 periods and the limit does not bind (a limit only
truncates, never extends), so the output has 720 rows. -/
theorem C3_length_contract (hashFn : String → ℕ) (prng : ℕ → RandStreams)
    (symbol : String) :
    ((generate_mock_data hashFn prng symbol "1h" (some 1) 30 none none
        "auto").toOption.map (fun df => df.opens.length) = some 1) ∧
    ((generate_mock_data hashFn prng symbol "1h" (some 50) 30 none none
        "auto").toOption.map (fun df => df.opens.length) = some 50) ∧
    ((generate_mock_data hashFn prng symbol "1h" (some 100) 30 none none
        "auto").toOption.map (fun df => df.opens.length) = some 100) ∧
    ((generate_mock_data hashFn prng symbol "1h" (some 1000) 30 none none
        "auto").toOption.map (fun df => df.opens.length) = some 720) := by
  refine ⟨?_, ?_, ?_, ?_⟩ <;>
    rw [gen_days_rows hashFn prng symbol "1h" _ 30 "auto" (by norm_num)
      (by norm_num)] <;>
    decide

/-- C10 (counterexample): with only `start_date` given and `days = 0`, the
call still raises the `days` validation error — providing exactly one date
does not guarantee an error-free call, because the days-based fallback
(and its validation) runs. -/
theorem C10_single_date_counterexample :
    generate_mock_data hash0 prng0 "BTC" "1h" none 0 (some 0) none "auto" =
      Except.error "Days parameter must be positive" := by
  rfl

/-- C10 (amended): if exactly one of `start_date` / `end_date` is provided,
the lone date is silently ignored — the result is identical to the same
call with neither date — and, provided the `days` parameter is valid
(`0 < days ≤ 365`), no error is raised. -/
theorem C10_single_date_ignored (hashFn : String → ℕ) (prng : ℕ → RandStreams)
    (symbol timeframe : String) (limit : Option Int) (days : Int)
    (start_date end_date : Option Int) (scenario : String)
    (h : (start_date = none ∧ ∃ e, end_date = some e) ∨
      ((∃ s, start_date = some s) ∧ end_date = none)) :
    generate_mock_data hashFn prng symbol timeframe limit days start_date
        end_date scenario =
      generate_mock_data hashFn prng symbol timeframe limit days none none
        scenario ∧
    (0 < days → days ≤ 365 →
      ∃ df, generate_mock_data hashFn prng symbol timeframe limit days
        start_date end_date scenario = Except.ok df) := by
  have heq : generate_mock_data hashFn prng symbol timeframe limit days
      start_date end_date scenario =
      generate_mock_data hashFn prng symbol timeframe limit days none none
        scenario := by
    obtain ⟨hs, e, he⟩ | ⟨⟨s, hs⟩, he⟩ := h <;> subst hs <;> subst he <;> rfl
  refine ⟨heq, fun hd1 hd2 => ?_⟩
  rw [heq]
  have h1 : ¬ days ≤ 0 := not_le.mpr hd1
  have h2 : ¬ 365 < days := not_lt.mpr hd2
  simp [generate_mock_data, h1, h2]

/-- Witness for C10: only `end_date` provided, default `days = 30`. -/
theorem C10_single_date_ignored_witness :
    (((none : Option Int) = none ∧ ∃ e, (some 5 : Option Int) = some e) ∨
      ((∃ s, (none : Option Int) = some s) ∧ (some 5 : Option Int) = none)) ∧
    (generate_mock_data hash0 prng0 "BTC" "1h" none 30 none (some 5) "auto" =
        generate_mock_data hash0 prng0 "BTC" "1h" none 30 none none "auto" ∧
      (0 < (30 : Int) → (30 : Int) ≤ 365 →
        ∃ df, generate_mock_data hash0 prng0 "BTC" "1h" none 30 none (some 5)
          "auto" = Except.ok df)) :=
  ⟨Or.inl ⟨rfl, 5, rfl⟩,
    C10_single_date_ignored hash0 prng0 "BTC" "1h" none 30 none (some 5) "auto"
      (Or.inl ⟨rfl, 5, rfl⟩)⟩

/-- C6: every open, high, low and close value of the assembled table lies in
`[1, 1_000_000]`: each price column of `generate_ohlc_data` passes through
`np.clip(., 1, 1_000_000)`. -/
theorem C6_price_clip_bounds (hashFn : String → ℕ) (prng : ℕ → RandStreams)
    (symbol timeframe scenario : String) (periods timeframe_mins : Int)
    (actual_start_date : Int) :
    let df := build_frame hashFn prng symbol timeframe scenario periods
      timeframe_mins actual_start_date
    (∀ x ∈ df.opens, 1 ≤ x ∧ x ≤ 1000000) ∧
    (∀ x ∈ df.highs, 1 ≤ x ∧ x ≤ 1000000) ∧
    (∀ x ∈ df.lows, 1 ≤ x ∧ x ≤ 1000000) ∧
    (∀ x ∈ df.closes, 1 ≤ x ∧ x ≤ 1000000) := by
  dsimp only
  refine ⟨?_, ?_, ?_, ?_⟩ <;>
    · intro x hx
      simp only [build_frame, generate_ohlc_data, List.mem_map, List.mem_range]
        at hx
      obtain ⟨i, _, rfl⟩ := hx
      exact ⟨one_le_clip _, clip_le_top _⟩

/-- Witness for C6 at the first open of a concrete one-row table. -/
theorem C6_price_clip_bounds_witness :
    (build_frame hash0 prng0 "BTC" "1h" "bull" 1 60 0).opens.getD 0 0 ∈
      (build_frame hash0 prng0 "BTC" "1h" "bull" 1 60 0).opens ∧
    (1 ≤ (build_frame hash0 prng0 "BTC" "1h" "bull" 1 60 0).opens.getD 0 0 ∧
      (build_frame hash0 prng0 "BTC" "1h" "bull" 1 60 0).opens.getD 0 0 ≤
        1000000) :=
  have hm : (build_frame hash0 prng0 "BTC" "1h" "bull" 1 60 0).opens.getD 0 0 ∈
      (build_frame hash0 prng0 "BTC" "1h" "bull" 1 60 0).opens :=
    getD_mem _ 0 0 (by rw [build_frame_opens_length]; decide)
  ⟨hm, (C6_price_clip_bounds hash0 prng0 "BTC" "1h" "bull" 1 60 0).1 _ hm⟩

/-- Order relations between the pre-clip OHLC entries: `highs[i]` dominates
open, close and `lows[i]`; `lows[i]` is dominated by open and close. -/
theorem ohlc_entry_order (prices vol g hz lz : ℕ → ℝ) (i : ℕ) :
    open_at prices vol g i ≤ high_at prices vol g hz i ∧
    prices i ≤ high_at prices vol g hz i ∧
    low_at prices vol g lz i ≤ high_at prices vol g hz i ∧
    low_at prices vol g lz i ≤ open_at prices vol g i ∧
    low_at prices vol g lz i ≤ prices i := by
  have h1 : open_at prices vol g i ≤ high_at prices vol g hz i := le_max_left _ _
  have h2 : prices i ≤ high_at prices vol g hz i :=
    le_trans (le_max_right _ _) (le_max_right _ _)
  have h4 : low_at prices vol g lz i ≤ open_at prices vol g i := min_le_left _ _
  have h5 : low_at prices vol g lz i ≤ prices i :=
    le_trans (min_le_right _ _) (min_le_right _ _)
  exact ⟨h1, h2, le_trans h4 h1, h4, h5⟩

/-- The per-period volume float is non-negative whenever the volatility
entry is non-negative, the prices are positive and the uniform draw is
non-negative. -/
theorem volume_entry_nonneg (prices vol r : ℕ → ℝ) (periods i : ℕ)
    (hv : 0 ≤ vol i) (hp : ∀ j, 0 < prices j) (hr : 0 ≤ r i) :
    0 ≤ volume_at prices vol r periods i := by
  unfold volume_at
  dsimp only
  have h1 : (0 : ℝ) ≤ 1 + vol i * 5 := by nlinarith
  have h2 : (0 : ℝ) ≤
      (if i = 0 then 1
        else 1 + |prices i - prices (i - 1)| / prices (i - 1) * 10) := by
    split_ifs
    · norm_num
    · have hd : 0 ≤ |prices i - prices (i - 1)| / prices (i - 1) :=
        div_nonneg (abs_nonneg _) (hp (i - 1)).le
      nlinarith
  have h3 : (0 : ℝ) ≤ 0.5 + r i * 1.5 := by nlinarith
  have h4 : (0 : ℝ) ≤ cyclical_vol periods i :=
    le_trans (by norm_num) (cyclical_vol_ge periods i)
  exact mul_nonneg (mul_nonneg (mul_nonneg (mul_nonneg (by norm_num) h1) h2) h3) h4

/-- C1: in every generated table, each candle satisfies `high ≥ open`,
`high ≥ close`, `high ≥ low`, `low ≤ open`, `low ≤ close`, strictly
positive open/high/low/close, and `volume ≥ 0` — for any scenario,
timeframe and period count, given only that the volume model's uniform
draws are non-negative (the support of `np.random.random()`). -/
theorem C1_candle_invariants (hashFn : String → ℕ) (prng : ℕ → RandStreams)
    (symbol timeframe scenario : String) (periods timeframe_mins : Int)
    (actual_start_date : Int)
    (hr : ∀ j, 0 ≤ (prng (reseed_value hashFn timeframe)).volume_r j)
    (i : ℕ)
    (hi : i < (build_frame hashFn prng symbol timeframe scenario periods
      timeframe_mins actual_start_date).opens.length) :
    let df := build_frame hashFn prng symbol timeframe scenario periods
      timeframe_mins actual_start_date
    df.highs.getD i 0 ≥ df.opens.getD i 0 ∧
    df.highs.getD i 0 ≥ df.closes.getD i 0 ∧
    df.highs.getD i 0 ≥ df.lows.getD i 0 ∧
    df.lows.getD i 0 ≤ df.opens.getD i 0 ∧
    df.lows.getD i 0 ≤ df.closes.getD i 0 ∧
    0 < df.opens.getD i 0 ∧
    0 < df.highs.getD i 0 ∧
    0 < df.lows.getD i 0 ∧
    0 < df.closes.getD i 0 ∧
    0 ≤ df.volume.getD i 0 := by
  have hi' : i < periods.toNat := by rwa [build_frame_opens_length] at hi
  dsimp only
  simp only [build_frame, generate_ohlc_data, generate_realistic_volume,
    getD_map_range hi']
  obtain ⟨h1, h2, h3, h4, h5⟩ := ohlc_entry_order
    (fun j => clip (price_at 50000
      (trend_at (resolve_scenario hashFn symbol timeframe scenario)
        periods.toNat (prng (reseed_value hashFn timeframe)).trend_r)
      (volatility_at periods.toNat timeframe
        (prng (reseed_value hashFn timeframe)).vol_z)
      (prng (reseed_value hashFn timeframe)).price_z j) 1 1000000)
    (volatility_at periods.toNat timeframe
      (prng (reseed_value hashFn timeframe)).vol_z)
    (prng (reseed_value hashFn timeframe)).gap_z
    (prng (reseed_value hashFn timeframe)).high_z
    (prng (reseed_value hashFn timeframe)).low_z i
  refine ⟨clip_mono _ _ _ _ h1, clip_mono _ _ _ _ h2, clip_mono _ _ _ _ h3,
    clip_mono _ _ _ _ h4, clip_mono _ _ _ _ h5,
    lt_of_lt_of_le zero_lt_one (one_le_clip _),
    lt_of_lt_of_le zero_lt_one (one_le_clip _),
    lt_of_lt_of_le zero_lt_one (one_le_clip _),
    lt_of_lt_of_le zero_lt_one (one_le_clip _), ?_⟩
  refine trunc_to_int_nonneg _ (volume_entry_nonneg _ _ _ _ _
    (volatility_at_pos periods.toNat timeframe
      (prng (reseed_value hashFn timeframe)).vol_z i).le
    (fun j => lt_of_lt_of_le zero_lt_one (one_le_clip _)) (hr i))

/-- Witness for C1 at a concrete one-row generation. -/
theorem C1_candle_invariants_witness :
    (∀ j, 0 ≤ (prng0 (reseed_value hash0 "1h")).volume_r j) ∧
    (0 < (build_frame hash0 prng0 "BTC" "1h" "bull" 1 60 0).opens.length) ∧
    (let df := build_frame hash0 prng0 "BTC" "1h" "bull" 1 60 0;
      df.highs.getD 0 0 ≥ df.opens.getD 0 0 ∧
      df.highs.getD 0 0 ≥ df.closes.getD 0 0 ∧
      df.highs.getD 0 0 ≥ df.lows.getD 0 0 ∧
      df.lows.getD 0 0 ≤ df.opens.getD 0 0 ∧
      df.lows.getD 0 0 ≤ df.closes.getD 0 0 ∧
      0 < df.opens.getD 0 0 ∧
      0 < df.highs.getD 0 0 ∧
      0 < df.lows.getD 0 0 ∧
      0 < df.closes.getD 0 0 ∧
      0 ≤ df.volume.getD 0 0) :=
  ⟨fun _ => le_refl 0, by rw [build_frame_opens_length]; decide,
    C1_candle_invariants hash0 prng0 "BTC" "1h" "bull" 1 60 0
      (fun _ => le_refl 0) 0 (by rw [build_frame_opens_length]; decide)⟩

end Mockflow
